import Mathlib

/-!
# Verification of the newsxai content-extraction pipeline

Shallow embedding of `src/flows/news.py` (the `fetch_url_content` tool and
the `controlflow_news_pipeline` flow) together with spec-modelled versions
of the LLM-delegated stages (`task_organize_news`, `task_present_news`).
-/

namespace Newsxai

mutual

/-- An HTML DOM node, as produced by `BeautifulSoup(response.content,
'html.parser')`: either a text node or an element with a tag name and a
list of children. -/
inductive Node where
  | text (s : String) : Node
  | elem (tag : String) (children : NodeList) : Node

/-- The ordered children of an element. -/
inductive NodeList where
  | nil : NodeList
  | cons (c : Node) (cs : NodeList) : NodeList

end

/-- Build a `NodeList` from a plain list of nodes. -/
def NodeList.ofList : List Node → NodeList
  | [] => .nil
  | n :: ns => .cons n (NodeList.ofList ns)

/-- Python's `str.strip()`: the string with leading and trailing whitespace
characters removed. -/
def pyStrip (s : String) : String :=
  ⟨((s.data.dropWhile Char.isWhitespace).reverse.dropWhile Char.isWhitespace).reverse⟩

/-- Whether a node is a `script` or `style` element — the nodes selected by
`soup(["script", "style"])` in `fetch_url_content`. -/
def isScriptStyle : Node → Bool
  | .text _ => false
  | .elem tag _ => tag == "script" || tag == "style"

mutual

/-- `script_or_style.decompose()` applied to every script/style element of the
tree: removes those elements (and everything below them) everywhere. -/
def stripScriptStyle : Node → Node
  | .text s => .text s
  | .elem tag cs => .elem tag (stripScriptStyleList cs)

/-- `stripScriptStyle` mapped over a child list, dropping script/style children. -/
def stripScriptStyleList : NodeList → NodeList
  | .nil => .nil
  | .cons c cs =>
    if isScriptStyle c then stripScriptStyleList cs
    else .cons (stripScriptStyle c) (stripScriptStyleList cs)

end

mutual

/-- `soup.find_all('p')`: all `p` elements of the tree in document (preorder) order. -/
def findAllP : Node → List Node
  | .text _ => []
  | .elem tag cs =>
    (if tag == "p" then [Node.elem tag cs] else []) ++ findAllPList cs

/-- `findAllP` over a child list, concatenating in order. -/
def findAllPList : NodeList → List Node
  | .nil => []
  | .cons c cs => findAllP c ++ findAllPList cs

end

mutual

/-- BeautifulSoup's `stripped_strings` of a node: each descendant text node's
string, stripped of surrounding whitespace, with empty results dropped,
in document order. -/
def strippedStrings : Node → List String
  | .text s => if pyStrip s = "" then [] else [pyStrip s]
  | .elem _ cs => strippedStringsList cs

/-- `strippedStrings` over a child list, concatenating in order. -/
def strippedStringsList : NodeList → List String
  | .nil => []
  | .cons c cs => strippedStrings c ++ strippedStringsList cs

end

/-- Python's `"\n".join(xs)`: the strings joined with a newline between
consecutive elements. -/
def joinNL : List String → String
  | [] => ""
  | [s] => s
  | s :: ss => s ++ "\n" ++ joinNL ss

/-- Python's slice `s[:n]` on a `str` (a sequence of code points): the first
`n` characters of `s`. -/
def pyTake (s : String) (n : Nat) : String := ⟨s.data.take n⟩

/-- `p.get_text(strip=True)` (default separator `""`): the stripped strings of
`p` concatenated. -/
def pGetText (p : Node) : String := String.join (strippedStrings p)

/-- `soup.get_text(separator='\n', strip=True)`: the stripped strings of the
whole tree joined with newlines — the fallback used when no paragraph text
is found. -/
def getTextNL (doc : Node) : String := joinNL (strippedStrings doc)

/-- The list comprehension
`[p.get_text(strip=True) for p in paragraphs if p.get_text(strip=True)]`
over `paragraphs = soup.find_all('p')`: the non-empty stripped paragraph
texts in document order. -/
def paragraphTexts (soup : Node) : List String :=
  ((findAllP soup).map pGetText).filter (fun t => t ≠ "")

mutual

/-- Whether a tree contains no `script` or `style` element anywhere. -/
def noScriptStyle : Node → Bool
  | .text _ => true
  | .elem tag cs => !(tag == "script" || tag == "style") && noScriptStyleList cs

/-- `noScriptStyle` over a child list. -/
def noScriptStyleList : NodeList → Bool
  | .nil => true
  | .cons c cs => noScriptStyle c && noScriptStyleList cs

end

/-- The outcome of `requests.get(url, headers=headers, timeout=15)` followed by
`response.raise_for_status()` and HTML parsing, as observed by
`fetch_url_content`:
* `success doc` — a success HTTP status whose body parses to the DOM `doc`;
* `requestError msg` — a `requests.exceptions.RequestException` (non-success
  HTTP status via `raise_for_status`, connection failure, or timeout) whose
  string rendering is `msg`;
* `otherError msg` — any other `Exception` raised while fetching or
  processing, with string rendering `msg`. -/
inductive FetchOutcome where
  | success (doc : Node) : FetchOutcome
  | requestError (msg : String) : FetchOutcome
  | otherError (msg : String) : FetchOutcome

/-- The success branch of `fetch_url_content`: decompose script/style
elements, join the non-empty stripped paragraph texts with newlines, fall
back to the whole-document text when that is empty, and truncate to
`max_length = 8000` characters. -/
def extractSuccess (doc : Node) : String :=
  let soup := stripScriptStyle doc
  let text_content := joinNL (paragraphTexts soup)
  let text_content := if text_content = "" then getTextNL soup else text_content
  pyTake text_content 8000

/-- `fetch_url_content` from `src/flows/news.py`, as a function of the fetch
outcome for the given URL: on success it extracts and truncates the text, on a
`RequestException` or any other `Exception` it returns an `"Error:"`-prefixed
diagnostic string instead of raising. -/
def fetch_url_content : FetchOutcome → String
  | .success doc => extractSuccess doc
  | .requestError msg => "Error: Could not fetch content from URL. " ++ msg
  | .otherError msg => "Error: Could not process content from URL. " ++ msg

/-- Process-global mutable state touched by `controlflow_news_pipeline`:
the environment-variable map `os.environ` and the ControlFlow setting
`cf.settings.llm_model`. -/
structure GlobalState where
  env : String → Option String
  llmModel : String

/-- `os.environ[k] = v`: update one environment variable, leaving the rest. -/
def setEnv (env : String → Option String) (k v : String) : String → Option String :=
  fun q => if q = k then some v else env q

/-- The four Prefect Secret block names taken as flow parameters. -/
structure BlockNames where
  apiKey : String
  endpoint : String
  deployment : String
  apiVersion : String

/-- A raised fault escaping `controlflow_news_pipeline`.  `objectNotFound`
models `prefect.exceptions.ObjectNotFound` raised by `Secret.load` for a
missing block and re-raised by the bare `raise` — the spec's
`ConfigurationError` — carrying the missing block's name as the original
cause. -/
inductive PipelineError where
  | objectNotFound (blockName : String) : PipelineError
deriving Repr, DecidableEq

/-- `controlflow_news_pipeline` from `src/flows/news.py`.

`store` models the Prefect secret store: `Secret.load name` succeeds with the
block's value when `store name = some value` and raises `ObjectNotFound`
when `store name = none`.  The flow loads the four credential blocks in
order, then writes the four `AZURE_OPENAI_*` environment variables and
`cf.settings.llm_model`, and only then runs the ControlFlow task sequence.

`runTasks` is modelled from the spec: the `task_present_news.run()` call is
LLM-orchestrated and not code of this repository — only the task prompts
are under `src/`.  It reads the configured global state and yields the final
report together with the list of URLs fetched over the network; per the
spec, runs are stateless aside from the credential configuration, so
`runTasks` does not mutate the global state.

The result is the flow's outcome (report or raised fault), the final global
state, and the network calls made during the run. -/
def controlflow_news_pipeline (store : String → Option String) (names : BlockNames)
    (runTasks : GlobalState → String × List String) (g : GlobalState) :
    Except PipelineError String × GlobalState × List String :=
  match store names.apiKey with
  | none => (Except.error (.objectNotFound names.apiKey), g, [])
  | some apiKey =>
    match store names.endpoint with
    | none => (Except.error (.objectNotFound names.endpoint), g, [])
    | some endpoint =>
      match store names.deployment with
      | none => (Except.error (.objectNotFound names.deployment), g, [])
      | some deployment =>
        match store names.apiVersion with
        | none => (Except.error (.objectNotFound names.apiVersion), g, [])
        | some apiVersion =>
          let env := setEnv g.env "AZURE_OPENAI_API_KEY" apiKey
          let env := setEnv env "AZURE_OPENAI_ENDPOINT" endpoint
          let env := setEnv env "AZURE_OPENAI_DEPLOYMENT" deployment
          let env := setEnv env "AZURE_OPENAI_API_VERSION" apiVersion
          let g2 : GlobalState :=
            { env := env, llmModel := "azure-openai/" ++ deployment }
          let res := runTasks g2
          (Except.ok res.1, g2, res.2)

/-- The structured record produced by the summarization stage: either a
success variant (headline, summary, keywords) or an error variant. -/
inductive ArticleRecord where
  | success (headline summary : String) (keywords : List String) : ArticleRecord
  | error (msg : String) : ArticleRecord
deriving Repr, DecidableEq

/-- The extractor's diagnostic convention: the text begins with the literal
marker `"Error:"`. -/
def startsWithError (text : String) : Bool :=
  List.isPrefixOf ("Error:").data text.data

/-- Modelled from the spec: the behaviour of `task_organize_news` is
LLM-implemented and not code of this repository — only its prompt is under
`src/`.  Per the spec, an input beginning with the literal marker `"Error:"`
yields exactly the error variant `{error: "Could not process article
content."}` with no extraction attempted; otherwise the headline, summary and
keywords produced by the language model — abstracted here as the function
`llm` — are returned as a success record. -/
def summarize (llm : String → String × String × List String) (text : String) :
    ArticleRecord :=
  if startsWithError text then ArticleRecord.error "Could not process article content."
  else
    let r := llm text
    ArticleRecord.success r.1 r.2.1 r.2.2

/-- Modelled from the spec: the behaviour of `task_present_news` is
LLM-implemented and not code of this repository — only its prompt is under
`src/`.  Per the spec, the success variant renders the fixed multi-line
template with the keywords comma-joined in order, and the error variant
renders a single generic error line. -/
def format : ArticleRecord → String
  | .success h s kws =>
      "--- News Report ---\n" ++
      "Headline: " ++ h ++ "\n" ++
      "Summary: " ++ s ++ "\n" ++
      "Keywords: " ++ String.intercalate ", " kws ++ "\n" ++
      "-------------------"
  | .error _ => "Error: Could not process article content."

/-- Modelled from the spec: running the report-formatter stage against the
process-global state.  The spec fixes `format` as a deterministic pure
function with no side effects, so the stage returns the formatted report and
leaves the global state exactly as it found it. -/
def formatRun (g : GlobalState) (r : ArticleRecord) : String × GlobalState :=
  (format r, g)

/-! ## Helper lemmas -/

/-- Decomposing script/style children preserves the tag of the node itself. -/
theorem isScriptStyle_strip (n : Node) :
    isScriptStyle (stripScriptStyle n) = isScriptStyle n := by
  cases n <;> simp [stripScriptStyle, isScriptStyle]

mutual

/-- Decomposing script/style elements is idempotent. -/
theorem stripScriptStyle_idem : ∀ n : Node,
    stripScriptStyle (stripScriptStyle n) = stripScriptStyle n
  | .text _ => rfl
  | .elem t cs => by
      simp only [stripScriptStyle, stripScriptStyleList_idem cs]

/-- Decomposing script/style elements of a child list is idempotent. -/
theorem stripScriptStyleList_idem : ∀ cs : NodeList,
    stripScriptStyleList (stripScriptStyleList cs) = stripScriptStyleList cs
  | .nil => rfl
  | .cons c cs => by
      cases h : isScriptStyle c with
      | true => simp only [stripScriptStyleList, h, if_pos, stripScriptStyleList_idem cs]
      | false =>
          simp only [stripScriptStyleList, h, Bool.false_eq_true, if_false,
            isScriptStyle_strip c, stripScriptStyle_idem c, stripScriptStyleList_idem cs]

end

mutual

/-- After decomposition, a non-script/style node contains no script/style
element anywhere. -/
theorem noScriptStyle_strip : ∀ n : Node, isScriptStyle n = false →
    noScriptStyle (stripScriptStyle n) = true
  | .text _, _ => rfl
  | .elem t cs, h => by
      have ht : (t == "script" || t == "style") = false := by
        simpa [isScriptStyle] using h
      simp only [stripScriptStyle, noScriptStyle, ht, Bool.not_false, Bool.true_and]
      exact noScriptStyleList_strip cs

/-- After decomposition, a child list contains no script/style element. -/
theorem noScriptStyleList_strip : ∀ cs : NodeList,
    noScriptStyleList (stripScriptStyleList cs) = true
  | .nil => rfl
  | .cons c cs => by
      cases h : isScriptStyle c with
      | true => simp only [stripScriptStyleList, h, if_pos, noScriptStyleList_strip cs]
      | false =>
          simp only [stripScriptStyleList, h, Bool.false_eq_true, if_false, noScriptStyleList,
            noScriptStyle_strip c h, noScriptStyleList_strip cs, Bool.and_self]

end

/-- A string whose character list is empty is the empty string. -/
theorem eq_empty_of_data_eq_nil {s : String} (h : s.data = []) : s = "" :=
  String.ext h

/-- The character data of `fetch_url_content` on a `RequestException` outcome:
the `"Error:"` marker followed by the rest of the diagnostic. -/
theorem fetch_requestError_data (msg : String) :
    (fetch_url_content (.requestError msg)).data
      = ("Error:").data ++ ((" Could not fetch content from URL. ").data ++ msg.data) := by
  show ("Error: Could not fetch content from URL. " ++ msg).data = _
  rw [String.data_append,
    show ("Error: Could not fetch content from URL. ").data
      = ("Error:").data ++ (" Could not fetch content from URL. ").data from by decide,
    List.append_assoc]

/-- The character data of `fetch_url_content` on an other-exception outcome:
the `"Error:"` marker followed by the rest of the diagnostic. -/
theorem fetch_otherError_data (msg : String) :
    (fetch_url_content (.otherError msg)).data
      = ("Error:").data ++ ((" Could not process content from URL. ").data ++ msg.data) := by
  show ("Error: Could not process content from URL. " ++ msg).data = _
  rw [String.data_append,
    show ("Error: Could not process content from URL. ").data
      = ("Error:").data ++ (" Could not process content from URL. ").data from by decide,
    List.append_assoc]

/-- Joining a list whose first string is non-empty yields a non-empty string. -/
theorem joinNL_cons_ne_empty (t : String) (ts : List String) (ht : t ≠ "") :
    joinNL (t :: ts) ≠ "" := by
  cases ts with
  | nil => simpa [joinNL] using ht
  | cons t2 ts =>
      simp only [joinNL]
      intro hc
      have hlen := congrArg String.length hc
      rw [String.length_append, String.length_append] at hlen
      have h1 : ("\n").length = 1 := rfl
      have h0 : ("").length = 0 := rfl
      omega

/-- The Python slice `s[:n]` has length at most `n`. -/
theorem pyTake_length_le (s : String) (n : Nat) : (pyTake s n).length ≤ n := by
  show (s.data.take n).length ≤ n
  rw [List.length_take]
  exact Nat.min_le_left _ _

/-! ## Sample documents used by witnesses -/

/-- A sample fetched document: two paragraphs with text and a script element. -/
def sampleDoc : Node :=
  Node.elem "html" (NodeList.ofList
    [Node.elem "p" (NodeList.ofList [Node.text " First paragraph. "]),
     Node.elem "p" (NodeList.ofList [Node.text "Second paragraph."]),
     Node.elem "script" (NodeList.ofList [Node.text "var x = 1;"])])

/-- A sample fetched document with no paragraph elements at all. -/
def sampleNoParaDoc : Node :=
  Node.elem "html" (NodeList.ofList
    [Node.text " Title ", Node.elem "div" (NodeList.ofList [Node.text "Body text."])])

/-! ## Claims -/

/-- C1: for every URL whose HTTP fetch fails with a non-success status or a
network failure (including timeout) — a `requests.exceptions.RequestException`,
modelled by `FetchOutcome.requestError` — `fetch_url_content` returns (rather
than raising to its caller) the error-variant string
`"Error: Could not fetch content from URL. "` followed by the exception's
human-readable message; in particular the result carries the `"Error:"`
marker. -/
theorem fetch_failure_yields_error_variant (msg : String) :
    fetch_url_content (.requestError msg)
        = "Error: Could not fetch content from URL. " ++ msg ∧
    ∃ rest, (fetch_url_content (.requestError msg)).data = ("Error:").data ++ rest :=
  ⟨rfl, _, fetch_requestError_data msg⟩

/-- C2: for every successfully fetched document (the parsed soup root is the
document object, never itself a script/style element), the extracted string
has length at most 8000, the decomposed tree it is read from contains no
script/style element, and the extraction result is unchanged if the fetched
document is replaced by its script/style-free decomposition — so no text
derived from script or style elements enters the result. -/
theorem fetch_success_bounded_and_script_free (doc : Node)
    (h : isScriptStyle doc = false) :
    (fetch_url_content (.success doc)).length ≤ 8000 ∧
    noScriptStyle (stripScriptStyle doc) = true ∧
    fetch_url_content (.success doc)
      = fetch_url_content (.success (stripScriptStyle doc)) := by
  refine ⟨pyTake_length_le _ _, noScriptStyle_strip doc h, ?_⟩
  show extractSuccess doc = extractSuccess (stripScriptStyle doc)
  simp only [extractSuccess, stripScriptStyle_idem]

/-- Witness for C2 at a concrete document. -/
theorem fetch_success_bounded_and_script_free_witness :
    isScriptStyle sampleDoc = false ∧
    ((fetch_url_content (.success sampleDoc)).length ≤ 8000 ∧
     noScriptStyle (stripScriptStyle sampleDoc) = true ∧
     fetch_url_content (.success sampleDoc)
       = fetch_url_content (.success (stripScriptStyle sampleDoc))) :=
  ⟨by decide, fetch_success_bounded_and_script_free sampleDoc (by decide)⟩

/-- C3: for every successfully fetched document with at least one paragraph
element whose stripped text is non-empty, the extracted text is exactly the
newline-join of the non-empty stripped paragraph texts in document order,
truncated to 8000 characters — the full-document fallback is not taken. -/
theorem fetch_success_paragraph_join (doc : Node)
    (h : paragraphTexts (stripScriptStyle doc) ≠ []) :
    fetch_url_content (.success doc)
      = pyTake (joinNL (paragraphTexts (stripScriptStyle doc))) 8000 := by
  have hne : joinNL (paragraphTexts (stripScriptStyle doc)) ≠ "" := by
    obtain ⟨t, ts, hts⟩ := List.exists_cons_of_ne_nil h
    have htmem : t ∈ paragraphTexts (stripScriptStyle doc) := by
      rw [hts]; exact List.mem_cons_self _ _
    have ht : t ≠ "" := by
      have hm := htmem
      simp only [paragraphTexts, List.mem_filter, decide_not, Bool.not_eq_true',
        decide_eq_false_iff_not] at hm
      exact hm.2
    rw [hts]; exact joinNL_cons_ne_empty t ts ht
  show extractSuccess doc = _
  simp only [extractSuccess]
  rw [if_neg hne]

/-- Witness for C3 at a concrete document with two non-empty paragraphs. -/
theorem fetch_success_paragraph_join_witness :
    paragraphTexts (stripScriptStyle sampleDoc) ≠ [] ∧
    fetch_url_content (.success sampleDoc)
      = pyTake (joinNL (paragraphTexts (stripScriptStyle sampleDoc))) 8000 :=
  ⟨by decide, fetch_success_paragraph_join sampleDoc (by decide)⟩

/-- C4: for every input text beginning with the literal marker `"Error:"`,
the summarizer returns exactly the error variant
`{error: "Could not process article content."}`, and its result does not
depend on the headline/summary/keyword extraction function at all — no
extraction is performed. -/
theorem summarize_error_passthrough
    (llm llm2 : String → String × String × List String) (text : String)
    (h : startsWithError text = true) :
    summarize llm text = ArticleRecord.error "Could not process article content." ∧
    summarize llm text = summarize llm2 text := by
  constructor <;> simp [summarize, h]

/-- Witness for C4 at a concrete extractor diagnostic. -/
theorem summarize_error_passthrough_witness :
    startsWithError "Error: Could not fetch content from URL. timeout" = true ∧
    summarize (fun t => (t, t, [t])) "Error: Could not fetch content from URL. timeout"
      = ArticleRecord.error "Could not process article content." :=
  ⟨by decide,
   (summarize_error_passthrough (fun t => (t, t, [t])) (fun _ => ("", "", []))
      "Error: Could not fetch content from URL. timeout" (by decide)).1⟩

/-- C5: for every successfully fetched document in which no paragraph element
yields non-empty stripped text, the extractor falls back to the whole-document
text with newline-separated block boundaries, truncated to 8000 characters. -/
theorem fetch_success_fallback (doc : Node)
    (h : paragraphTexts (stripScriptStyle doc) = []) :
    fetch_url_content (.success doc)
      = pyTake (getTextNL (stripScriptStyle doc)) 8000 := by
  show extractSuccess doc = _
  simp only [extractSuccess, h, joinNL, if_pos]

/-- Witness for C5 at a concrete paragraph-free document. -/
theorem fetch_success_fallback_witness :
    paragraphTexts (stripScriptStyle sampleNoParaDoc) = [] ∧
    fetch_url_content (.success sampleNoParaDoc)
      = pyTake (getTextNL (stripScriptStyle sampleNoParaDoc)) 8000 :=
  ⟨by decide, fetch_success_fallback sampleNoParaDoc (by decide)⟩

/-- C6: the report formatter is a deterministic pure function: running the
formatting stage twice on the same `ArticleRecord`, even from different
ambient global states, yields character-for-character identical output, and
the stage leaves the global state exactly as it found it (no side effects). -/
theorem format_pure_deterministic (r : ArticleRecord) (g g2 : GlobalState) :
    (formatRun g r).1.data = (formatRun g2 r).1.data ∧ (formatRun g r).2 = g :=
  ⟨rfl, rfl⟩

/-- C7: whenever one of the four required credential blocks is missing from
the secret store, the pipeline fails with a raised `ObjectNotFound`
configuration fault naming the missing block (the original cause), and the
run performs no network call at all. -/
theorem pipeline_config_error_before_network (store : String → Option String)
    (names : BlockNames) (runTasks : GlobalState → String × List String)
    (g : GlobalState)
    (h : store names.apiKey = none ∨ store names.endpoint = none ∨
         store names.deployment = none ∨ store names.apiVersion = none) :
    ∃ n, store n = none ∧
      (controlflow_news_pipeline store names runTasks g).1
          = Except.error (PipelineError.objectNotFound n) ∧
      (controlflow_news_pipeline store names runTasks g).2.2 = [] := by
  cases hk : store names.apiKey with
  | none => exact ⟨names.apiKey, hk, by simp [controlflow_news_pipeline, hk]⟩
  | some vK =>
    cases he : store names.endpoint with
    | none => exact ⟨names.endpoint, he, by simp [controlflow_news_pipeline, hk, he]⟩
    | some vE =>
      cases hd : store names.deployment with
      | none => exact ⟨names.deployment, hd, by simp [controlflow_news_pipeline, hk, he, hd]⟩
      | some vD =>
        cases hv : store names.apiVersion with
        | none =>
            exact ⟨names.apiVersion, hv, by simp [controlflow_news_pipeline, hk, he, hd, hv]⟩
        | some vV => simp [hk, he, hd, hv] at h

/-- Witness for C7: an empty secret store fails on the api-key block with no
network call. -/
theorem pipeline_config_error_before_network_witness :
    ((fun _ : String => (none : Option String)) "azure-openai-api-key" = none ∨
     (fun _ : String => (none : Option String)) "azure-openai-endpoint" = none ∨
     (fun _ : String => (none : Option String)) "azure-openai-deployment" = none ∨
     (fun _ : String => (none : Option String)) "azure-openai-api-version" = none) ∧
    ∃ n, (fun _ : String => (none : Option String)) n = none ∧
      (controlflow_news_pipeline (fun _ => none)
          ⟨"azure-openai-api-key", "azure-openai-endpoint",
           "azure-openai-deployment", "azure-openai-api-version"⟩
          (fun _ => ("report", [])) ⟨fun _ => none, ""⟩).1
        = Except.error (PipelineError.objectNotFound n) ∧
      (controlflow_news_pipeline (fun _ => none)
          ⟨"azure-openai-api-key", "azure-openai-endpoint",
           "azure-openai-deployment", "azure-openai-api-version"⟩
          (fun _ => ("report", [])) ⟨fun _ => none, ""⟩).2.2 = [] :=
  ⟨Or.inl rfl,
   pipeline_config_error_before_network (fun _ => none) _ _ _ (Or.inl rfl)⟩

/-- C8: a pipeline run modifies no process-global state other than the
credential/configuration it is given: every environment variable other than
the four `AZURE_OPENAI_*` credential keys is left exactly as before the run,
and the ControlFlow model setting is either untouched (failed run) or set to
the value derived from the externally supplied deployment credential. -/
theorem pipeline_global_state_frame (store : String → Option String)
    (names : BlockNames) (runTasks : GlobalState → String × List String)
    (g : GlobalState) (k : String)
    (h : k ≠ "AZURE_OPENAI_API_KEY" ∧ k ≠ "AZURE_OPENAI_ENDPOINT" ∧
         k ≠ "AZURE_OPENAI_DEPLOYMENT" ∧ k ≠ "AZURE_OPENAI_API_VERSION") :
    (controlflow_news_pipeline store names runTasks g).2.1.env k = g.env k ∧
    ((controlflow_news_pipeline store names runTasks g).2.1.llmModel = g.llmModel ∨
     ∃ d, store names.deployment = some d ∧
       (controlflow_news_pipeline store names runTasks g).2.1.llmModel
         = "azure-openai/" ++ d) := by
  obtain ⟨h1, h2, h3, h4⟩ := h
  cases hk : store names.apiKey with
  | none => simp [controlflow_news_pipeline, hk]
  | some vK =>
    cases he : store names.endpoint with
    | none => simp [controlflow_news_pipeline, hk, he]
    | some vE =>
      cases hd : store names.deployment with
      | none => simp [controlflow_news_pipeline, hk, he, hd]
      | some vD =>
        cases hv : store names.apiVersion with
        | none => simp [controlflow_news_pipeline, hk, he, hd, hv]
        | some vV =>
          constructor
          · simp [controlflow_news_pipeline, hk, he, hd, hv, setEnv, h1, h2, h3, h4]
          · exact Or.inr ⟨vD, rfl, by simp [controlflow_news_pipeline, hk, he, hd, hv]⟩

/-- Witness for C8: a fully stocked store leaves an unrelated environment
variable (`PATH`) unchanged across a run. -/
theorem pipeline_global_state_frame_witness :
    (("PATH" ≠ "AZURE_OPENAI_API_KEY" ∧ "PATH" ≠ "AZURE_OPENAI_ENDPOINT" ∧
      "PATH" ≠ "AZURE_OPENAI_DEPLOYMENT" ∧ "PATH" ≠ "AZURE_OPENAI_API_VERSION")) ∧
    ((controlflow_news_pipeline (fun _ => some "v")
        ⟨"azure-openai-api-key", "azure-openai-endpoint",
         "azure-openai-deployment", "azure-openai-api-version"⟩
        (fun _ => ("report", ["https://example.com"]))
        ⟨fun _ => some "old", "m"⟩).2.1.env "PATH"
      = (⟨fun _ => some "old", "m"⟩ : GlobalState).env "PATH" ∧
     ((controlflow_news_pipeline (fun _ => some "v")
        ⟨"azure-openai-api-key", "azure-openai-endpoint",
         "azure-openai-deployment", "azure-openai-api-version"⟩
        (fun _ => ("report", ["https://example.com"]))
        ⟨fun _ => some "old", "m"⟩).2.1.llmModel
        = (⟨fun _ => some "old", "m"⟩ : GlobalState).llmModel ∨
      ∃ d, (fun _ : String => some "v") "azure-openai-deployment" = some d ∧
        (controlflow_news_pipeline (fun _ => some "v")
          ⟨"azure-openai-api-key", "azure-openai-endpoint",
           "azure-openai-deployment", "azure-openai-api-version"⟩
          (fun _ => ("report", ["https://example.com"]))
          ⟨fun _ => some "old", "m"⟩).2.1.llmModel = "azure-openai/" ++ d)) :=
  ⟨⟨by decide, by decide, by decide, by decide⟩,
   pipeline_global_state_frame (fun _ => some "v") _ _ _ "PATH"
     ⟨by decide, by decide, by decide, by decide⟩⟩

/-- C9: the content extractor is total: every fetch outcome — success, a
caught `RequestException`, or any other caught exception — yields a returned
string; on the success outcome it is the extracted text, and on both
exception outcomes it is an `"Error:"`-prefixed diagnostic, so no exception
propagates to the caller. -/
theorem fetch_url_content_total (o : FetchOutcome) :
    (∃ doc, o = .success doc ∧ fetch_url_content o = extractSuccess doc) ∨
    (∃ rest, (fetch_url_content o).data = ("Error:").data ++ rest) := by
  cases o with
  | success doc => exact Or.inl ⟨doc, rfl, rfl⟩
  | requestError msg => exact Or.inr ⟨_, fetch_requestError_data msg⟩
  | otherError msg => exact Or.inr ⟨_, fetch_otherError_data msg⟩

/-- C10: the 8000-character truncation applies only on the successful-fetch
path: there is a failing fetch whose diagnostic string carries the `"Error:"`
marker yet is longer than 8000 characters. -/
theorem fetch_error_variant_exceeds_limit :
    ∃ msg : String,
      (∃ rest, (fetch_url_content (.requestError msg)).data = ("Error:").data ++ rest) ∧
      8000 < (fetch_url_content (.requestError msg)).length := by
  refine ⟨⟨List.replicate 8000 'a'⟩, ⟨_, fetch_requestError_data _⟩, ?_⟩
  show 8000 < ("Error: Could not fetch content from URL. "
      ++ (⟨List.replicate 8000 'a'⟩ : String)).length
  rw [String.length_append]
  have h1 : ("Error: Could not fetch content from URL. ").length = 41 := by decide
  have h2 : (⟨List.replicate 8000 'a'⟩ : String).length = 8000 :=
    List.length_replicate 8000 'a'
  omega

end Newsxai
